import Mathlib

/-!
Verification of the ZynxAGI frontend and monitoring dashboard against its
specification.  The definitions below are shallow embeddings of the
TypeScript sources: src/zynx_monitoring_dashboard.tsx,
src/frontend/src/types/chat.ts (ChatError / handleApiError / chatService),
src/frontend/src/hooks/useChat.ts (the chat hook state machine) and
src/frontend/src/components/Chat (the retry bookkeeping).  Components of
the dispatch core that are not present under the frontend sources
(ScoringEngine flag, the cache layer, BackendRegistry health updates) are
modelled from the spec and marked as such in their doc comments.
Numbers that the code stores as JS floats are embedded as rationals;
JS Date values are embedded as an abstract Nat clock.
-/

namespace ZynxAGI

/-- Metrics payload fields consumed by the dashboard history update
(src/zynx_monitoring_dashboard.tsx, onmessage handler and generateMockData). -/
structure Metrics where
  timestamp : String
  inference_time_ms : ℚ
  gpu_utilization : ℚ
  cultural_accuracy_score : ℚ
  tokens_per_second : ℚ
deriving DecidableEq

/-- History point pushed by the dashboard on every metrics update. -/
structure HistPoint where
  time : String
  inference_time : ℚ
  gpu_util : ℚ
  cultural_score : ℚ
  tokens_per_sec : ℚ
deriving DecidableEq

/-- Construction of the history point from a metrics message; timeStr stands
for new Date(data.timestamp).toLocaleTimeString(). -/
def toHistPoint (timeStr : String) (m : Metrics) : HistPoint :=
  { time := timeStr
    inference_time := m.inference_time_ms
    gpu_util := m.gpu_utilization
    cultural_score := m.cultural_accuracy_score * 100
    tokens_per_sec := m.tokens_per_second }

/-- JavaScript Array.prototype.slice(-50): the last 50 elements of the array
(the whole array when it has at most 50 elements). -/
def sliceLast50 (l : List HistPoint) : List HistPoint := l.drop (l.length - 50)

/-- Dashboard history update: setHistory(prev => [...prev, point].slice(-50)),
as performed both by the WebSocket onmessage handler and by generateMockData. -/
def historyUpdate (prev : List HistPoint) (p : HistPoint) : List HistPoint :=
  sliceLast50 (prev ++ [p])

/-- Initial dashboard health score: useState(95). -/
def initialHealthScore : ℚ := 95

/-- Health score recomputation on each metrics message:
setHealthScore(85 + Math.random() * 15), where r stands for the
Math.random() draw (a value in [0,1)). -/
def nextHealthScore (r : ℚ) : ℚ := 85 + r * 15

/-- Dashboard health score after a sequence of metrics messages whose
Math.random() draws are rs (each message overwrites the previous score). -/
def healthAfter (rs : List ℚ) : ℚ :=
  rs.foldl (fun _ r => nextHealthScore r) initialHealthScore

/-- Clamp of a rational to the unit interval. -/
def clamp01 (x : ℚ) : ℚ := max 0 (min 1 x)

/-- Modelled from the spec: BackendRegistry.update recomputes a backend's
health_score as an exponentially weighted moving average with smoothing
factor a of a combined feedback value v, kept clamped to [0,1]; the registry
implementation itself is not under src/. -/
def updateHealth (a h v : ℚ) : ℚ := clamp01 ((1 - a) * h + a * v)

/-- Modelled from the spec: a backend's health score after folding a sequence
of feedback values vs into an initial score h0. -/
def backendHealthAfter (a h0 : ℚ) (vs : List ℚ) : ℚ := vs.foldl (updateHealth a) h0

/-- Configuration default from src/.env.example: MAX_CONCURRENT_REQUESTS=100. -/
def MAX_CONCURRENT_REQUESTS : Nat := 100

/-- Configuration default from src/.env.example: REQUEST_TIMEOUT=30 (seconds). -/
def REQUEST_TIMEOUT : Nat := 30

/-- Configuration default from src/.env.example: CACHE_TTL=3600 (seconds). -/
def CACHE_TTL : Nat := 3600

/-- Configuration default from src/.env.example: DEFAULT_CULTURAL_THRESHOLD=0.7. -/
def DEFAULT_CULTURAL_THRESHOLD : ℚ := 7/10

/-- Timeout of the axios API client in src/frontend/src/services/api.ts
(axios.create with timeout 30000, milliseconds). -/
def apiClientTimeoutMs : Nat := 30000

/-- Shape of an axios HTTP error response: its status and the optional
message field of its JSON body. -/
structure AxiosResponse where
  status : Nat
  dataMessage : Option String
deriving DecidableEq

/-- Values thrown inside the API service: an axios error (carrying an
optional HTTP response, the error message, and the optional x-message-id
request header), or any non-axios value. -/
inductive JsError where
  | axios (response : Option AxiosResponse) (message : String) (messageId : Option String)
  | other
deriving DecidableEq

/-- ChatError from src/frontend/src/types/chat.ts: code, message, optional
details (the raw response), timestamp, and optional context.messageId. -/
structure ChatError where
  code : String
  message : String
  details : Option AxiosResponse
  timestamp : Nat
  contextMessageId : Option String
deriving DecidableEq

/-- handleApiError from src/frontend/src/services/api.ts, with now standing
for new Date().  For an axios error the code is the response status rendered
as a string when a response is present, and the JS fallback "UNKNOWN_ERROR"
otherwise; the message falls back through data.message to the error's own
message (the || operator also skips an empty data.message). -/
def handleApiError (now : Nat) : JsError → ChatError
  | .axios response msg mid =>
    { code := match response with
        | some r => toString r.status
        | none => "UNKNOWN_ERROR"
      message := match response with
        | some r =>
          match r.dataMessage with
          | some m => if m = "" then msg else m
          | none => msg
        | none => msg
      details := response
      timestamp := now
      contextMessageId := mid }
  | .other =>
    { code := "UNKNOWN_ERROR"
      message := "An unexpected error occurred"
      details := none
      timestamp := now
      contextMessageId := none }

/-- CulturalContext from src/frontend/src/types/chat.ts. -/
structure CulturalContext where
  context : String
  explanation : String
deriving DecidableEq

/-- ChatResponse from src/frontend/src/types/chat.ts. -/
structure ChatResponse where
  message : String
  aiPlatform : String
  culturalContext : CulturalContext
  culturalAccuracyScore : ℚ
  emotionalIntelligenceScore : ℚ
  processingTime : ℚ
deriving DecidableEq

/-- APIResponse wrapper from src/frontend/src/types/chat.ts (the metadata
block is not inspected by any claim and is omitted). -/
structure APIResponse (T : Type) where
  success : Bool
  data : T
deriving DecidableEq

/-- chatService.sendMessage error path: the awaited apiClient.post either
resolves (post = ok) and its data is returned, or throws (post = error) and
the catch block rethrows handleApiError of the thrown value. -/
def chatServiceSendMessage (now : Nat)
    (post : Except JsError (APIResponse ChatResponse)) :
    Except ChatError (APIResponse ChatResponse) :=
  match post with
  | .ok r => .ok r
  | .error e => .error (handleApiError now e)

/-- Health endpoint payload from chatService.healthCheck. -/
structure HealthStatus where
  status : String
  version : String
deriving DecidableEq

/-- chatService.healthCheck: returns the response data or rethrows
handleApiError of whatever apiClient.get threw. -/
def healthCheck (now : Nat) (get : Except JsError (APIResponse HealthStatus)) :
    Except ChatError (APIResponse HealthStatus) :=
  match get with
  | .ok r => .ok r
  | .error e => .error (handleApiError now e)

/-- chatService.checkApiAvailability: awaits healthCheck inside try/catch and
returns true on success, false on any thrown value. -/
def checkApiAvailability (now : Nat)
    (get : Except JsError (APIResponse HealthStatus)) : Bool :=
  match healthCheck now get with
  | .ok _ => true
  | .error _ => false

/-- Chat message as built by src/frontend/src/hooks/useChat.ts; the
cultural fields are optional because user messages are constructed without
them. -/
structure Msg where
  id : String
  role : String
  content : String
  timestamp : Nat
  culturalContext : Option CulturalContext
  aiPlatform : Option String
  culturalScore : Option ℚ
  emotionalScore : Option ℚ
deriving DecidableEq

/-- Initial greeting message of useChat (its inline culturalContext object
has a shape unrelated to the declared CulturalContext type and is never
inspected, so it is embedded as none); t0 stands for new Date() at mount. -/
def initialGreeting (t0 : Nat) : Msg :=
  { id := "1"
    role := "assistant"
    content := "สวัสดีค่ะ! ยินดีต้อนรับสู่ ZynxAGI 🌟 ฉันคือ Deeja น้องดีจ้าที่จะช่วยคุณเชื่อมต่อกับ AI ที่เหมาะสมที่สุดพร้อมความเข้าใจทางวัฒนธรรม How can I help you today?"
    timestamp := t0
    culturalContext := none
    aiPlatform := some "deeja"
    culturalScore := some (95/100)
    emotionalScore := some (88/100) }

/-- State of the useChat hook.  messages, isLoading, error and lastMessage
mirror the hook's useState/useRef cells; inFlight counts requests started
but not yet settled, requests records every API request issued, and
successToasts counts toast.success calls — instrumentation used to state
the concurrency, frame and notification claims. -/
structure HookState where
  messages : List Msg
  isLoading : Bool
  error : Option String
  lastMessage : Option String
  inFlight : Nat
  requests : List String
  successToasts : Nat
deriving DecidableEq

/-- Initial hook state: the greeting message, not loading, no error, no
last message, nothing in flight. -/
def initHookState (t0 : Nat) : HookState :=
  { messages := [initialGreeting t0]
    isLoading := false
    error := none
    lastMessage := none
    inFlight := 0
    requests := []
    successToasts := 0 }

/-- User message appended by sendMessage (id is Date.now().toString()). -/
def userMsg (content : String) (now : Nat) : Msg :=
  { id := toString now
    role := "user"
    content := content
    timestamp := now
    culturalContext := none
    aiPlatform := none
    culturalScore := none
    emotionalScore := none }

/-- Assistant message appended on a successful response
(id is (Date.now() + 1).toString()). -/
def assistantMsg (r : ChatResponse) (now : Nat) : Msg :=
  { id := toString (now + 1)
    role := "assistant"
    content := r.message
    timestamp := now
    culturalContext := some r.culturalContext
    aiPlatform := some r.aiPlatform
    culturalScore := some r.culturalAccuracyScore
    emotionalScore := some r.emotionalIntelligenceScore }

/-- JavaScript typeof-based dispatch inside handleError: an Error instance,
a string, or any other thrown value (the ChatError thrown by chatService is
a plain object, hence otherValue). -/
inductive ThrownValue where
  | jsErrorInstance (message : String)
  | str (s : String)
  | otherValue
deriving DecidableEq

/-- handleError's derived error message: the Error's message, the string
itself, or the Thai fallback text for any other value. -/
def errorMessageOf : ThrownValue → String
  | .jsErrorInstance m => m
  | .str s => s
  | .otherValue => "เกิดข้อผิดพลาดในการส่งข้อความ"

/-- Events of one useChat session: a sendMessage invocation, and the
settlement of the in-flight request (fulfilled response or thrown value). -/
inductive ChatEvent where
  | start (content : String) (now : Nat)
  | succeed (r : ChatResponse) (now : Nat)
  | fail (e : ThrownValue)
deriving DecidableEq

/-- JavaScript String.prototype.trim: leading and trailing whitespace
removed (so !content.trim() holds exactly when the trim is empty). -/
def jsTrim (s : String) : String :=
  String.mk (((s.toList.dropWhile Char.isWhitespace).reverse.dropWhile Char.isWhitespace).reverse)

/-- One step of the useChat hook.  start: sendMessage returns immediately
when the content trims to empty or a request is loading, otherwise appends
the user message, clears the error, records the last message and issues the
API request.  succeed/fail: settlement of the in-flight request (a no-op
when nothing is loading): append the assistant message and show the success
toast only above score 0.9, or record the error message; both clear
isLoading in the finally block. -/
def step (s : HookState) : ChatEvent → HookState
  | .start content now =>
    if jsTrim content = "" ∨ s.isLoading then s
    else
      { s with
        messages := s.messages ++ [userMsg content now]
        isLoading := true
        error := none
        lastMessage := some content
        inFlight := s.inFlight + 1
        requests := s.requests ++ [content] }
  | .succeed r now =>
    if s.isLoading then
      { s with
        messages := s.messages ++ [assistantMsg r now]
        successToasts :=
          if r.culturalAccuracyScore > 9/10 then s.successToasts + 1 else s.successToasts
        isLoading := false
        inFlight := s.inFlight - 1 }
    else s
  | .fail e =>
    if s.isLoading then
      { s with
        error := some (errorMessageOf e)
        isLoading := false
        inFlight := s.inFlight - 1 }
    else s

/-- Hook state after a sequence of events from the initial state. -/
def run (t0 : Nat) (es : List ChatEvent) : HookState :=
  es.foldl step (initHookState t0)

/-- Modelled from the spec: the ScoringEngine flags a scored response as
below_threshold=true exactly when its cultural score is below
DEFAULT_CULTURAL_THRESHOLD; the ScoringEngine implementation is not under
src/. -/
def belowThreshold (score threshold : ℚ) : Bool := score < threshold

/-- Base64 alphabet used by JavaScript btoa. -/
def b64Chars : List Char :=
  "ABCDEFGHIJKLMNOPQRSTUVWXYZabcdefghijklmnopqrstuvwxyz0123456789+/".toList

/-- Character of the base64 alphabet at a 6-bit index. -/
def b64Char (n : Nat) : Char := b64Chars.getD n 'A'

/-- JavaScript btoa on a binary string given by its byte values: standard
base64 with '=' padding, processing three bytes at a time. -/
def btoa : List Nat → String
  | [] => ""
  | [a] => String.mk [b64Char (a / 4), b64Char (a % 4 * 16), '=', '=']
  | [a, b] =>
    String.mk [b64Char (a / 4), b64Char (a % 4 * 16 + b / 16), b64Char (b % 16 * 4), '=']
  | a :: b :: c :: rest =>
    String.mk [b64Char (a / 4), b64Char (a % 4 * 16 + b / 16),
      b64Char (b % 16 * 4 + c / 64), b64Char (c % 64)] ++ btoa rest

/-- Cache identity of a chat request, from chatService.sendMessage:
query_hash = btoa(request.message).substring(0, 32). -/
def query_hash (msgBytes : List Nat) : String := (btoa msgBytes).take 32

/-- Modelled from the spec: one entry of the exchange cache (the caching
layer itself is not under src/; only CACHE_TTL and the query_hash sent by
the frontend are). -/
structure CacheEntry where
  key : String
  storedAt : Nat
  value : APIResponse ChatResponse

/-- Modelled from the spec: cache lookup by query_hash, serving a stored
exchange only within CACHE_TTL of the time it was stored. -/
def cacheLookup (cache : List CacheEntry) (key : String) (now : Nat) :
    Option (APIResponse ChatResponse) :=
  match cache.find? (fun e => e.key == key) with
  | some e => if now < e.storedAt + CACHE_TTL then some e.value else none
  | none => none

/-- Modelled from the spec: serving a chat request through the cache; the
result is the served exchange, whether a backend was invoked, and the new
cache. -/
def servedChat (backend : List Nat → APIResponse ChatResponse)
    (cache : List CacheEntry) (msgBytes : List Nat) (now : Nat) :
    APIResponse ChatResponse × Bool × List CacheEntry :=
  match cacheLookup cache (query_hash msgBytes) now with
  | some v => (v, false, cache)
  | none =>
    let v := backend msgBytes
    (v, true, { key := query_hash msgBytes, storedAt := now, value := v } :: cache)

/-- Retry bookkeeping of ChatInterface.handleSendMessage: after a failed
send the retry count is incremented only while it is strictly below 3. -/
def failRetryStep (retryCount : Nat) : Nat :=
  if retryCount < 3 then retryCount + 1 else retryCount

/-- Guard under which a failed handleSendMessage schedules another attempt:
retryCount < 3. -/
def retryScheduled (retryCount : Nat) : Bool := retryCount < 3

/-- Exponential backoff delay of the scheduled retry, in milliseconds:
1000 * Math.pow(2, retryCount). -/
def backoffDelay (retryCount : Nat) : Nat := 1000 * 2 ^ retryCount

/-- Retry count after n consecutive failed sends starting from 0. -/
def retryCountAfter : Nat → Nat
  | 0 => 0
  | n + 1 => failRetryStep (retryCountAfter n)

/-- Number of retries scheduled across n consecutive failed sends starting
from retry count 0. -/
def retriesScheduledAfter : Nat → Nat
  | 0 => 0
  | n + 1 => retriesScheduledAfter n + (if retryScheduled (retryCountAfter n) then 1 else 0)

end ZynxAGI

namespace ZynxAGI

/-- Helper: the clamped value is nonnegative. -/
theorem clamp01_nonneg (x : ℚ) : 0 ≤ clamp01 x := le_max_left 0 _

/-- Helper: the clamped value is at most one. -/
theorem clamp01_le_one (x : ℚ) : clamp01 x ≤ 1 :=
  max_le (by norm_num) (min_le_left 1 x)

/-- Helper: the spec-modelled backend health stays in the unit interval. -/
theorem backendHealthAfter_mem (a : ℚ) (vs : List ℚ) :
    ∀ h0 : ℚ, 0 ≤ h0 → h0 ≤ 1 →
      0 ≤ backendHealthAfter a h0 vs ∧ backendHealthAfter a h0 vs ≤ 1 := by
  induction vs with
  | nil => intro h0 h1 h2; exact ⟨h1, h2⟩
  | cons v vs ih =>
    intro h0 _ _
    simpa [backendHealthAfter, List.foldl_cons] using
      ih (updateHealth a h0 v) (clamp01_nonneg _) (clamp01_le_one _)

/-- Helper: the dashboard health score stays in [85,100] when every
Math.random() draw lies in [0,1). -/
theorem healthAfter_mem (rs : List ℚ) (hrs : ∀ r ∈ rs, 0 ≤ r ∧ r < 1) :
    85 ≤ healthAfter rs ∧ healthAfter rs ≤ 100 := by
  have key : ∀ (l : List ℚ) (acc : ℚ), (∀ r ∈ l, 0 ≤ r ∧ r < 1) →
      85 ≤ acc → acc ≤ 100 →
      85 ≤ l.foldl (fun _ r => nextHealthScore r) acc ∧
        l.foldl (fun _ r => nextHealthScore r) acc ≤ 100 := by
    intro l
    induction l with
    | nil => intro acc _ h1 h2; exact ⟨h1, h2⟩
    | cons r l ih =>
      intro acc hmem _ _
      have hr := hmem r (List.mem_cons_self r l)
      have h85 : (85 : ℚ) ≤ nextHealthScore r := by
        unfold nextHealthScore; nlinarith [hr.1]
      have h100 : nextHealthScore r ≤ 100 := by
        unfold nextHealthScore; nlinarith [hr.1, hr.2]
      simpa [List.foldl_cons] using
        ih (nextHealthScore r) (fun x hx => hmem x (List.mem_cons_of_mem r hx)) h85 h100
  have h95a : (85 : ℚ) ≤ 95 := by norm_num
  have h95b : (95 : ℚ) ≤ 100 := by norm_num
  simpa [healthAfter, initialHealthScore] using key rs 95 hrs h95a h95b

/-- C1 (amended): the spec-modelled backend health_score stays clamped to
[0,1] after any sequence of feedback updates, but the monitoring dashboard's
health score is kept on a 0..100 percentage scale: it is initialised to 95
and recomputed on every metrics message to 85 + 15 * r with r in [0,1), so
it always remains in [85,100] and never lies in [0,1]. -/
theorem claim_C1 (a h0 : ℚ) (vs rs : List ℚ)
    (hh0 : 0 ≤ h0 ∧ h0 ≤ 1)
    (hrs : ∀ r ∈ rs, 0 ≤ r ∧ r < 1) :
    (0 ≤ backendHealthAfter a h0 vs ∧ backendHealthAfter a h0 vs ≤ 1) ∧
    (85 ≤ healthAfter rs ∧ healthAfter rs ≤ 100) ∧
    ¬(healthAfter rs ≤ 1) := by
  have hd := healthAfter_mem rs hrs
  refine ⟨backendHealthAfter_mem a vs h0 hh0.1 hh0.2, hd, ?_⟩
  have := hd.1
  intro hle
  linarith

/-- Witness for C1 at concrete inputs: smoothing 1/5, initial backend health
0, one feedback value 1, and one dashboard metrics message with draw 0. -/
theorem claim_C1_witness :
    (0 ≤ backendHealthAfter (1/5) 0 [1] ∧ backendHealthAfter (1/5) 0 [1] ≤ 1) ∧
    (85 ≤ healthAfter [0] ∧ healthAfter [0] ≤ 100) ∧
    ¬(healthAfter [0] ≤ 1) := by
  refine claim_C1 (1/5) 0 [1] [0] ⟨le_refl 0, by norm_num⟩ ?_
  intro r hr
  have : r = 0 := by simpa using hr
  subst this
  exact ⟨le_refl 0, by norm_num⟩

/-- Counterexample to C1 as stated: before any metrics message the dashboard
health score is 95, and after a metrics message with draw 0 it is 85; in
both concrete states it lies outside [0,1]. -/
theorem claim_C1_cex :
    healthAfter [] = 95 ∧ ¬(healthAfter [] ≤ 1) ∧
    healthAfter [0] = 85 ∧ ¬(healthAfter [0] ≤ 1) := by
  refine ⟨rfl, by norm_num [healthAfter, initialHealthScore], ?_, ?_⟩
  · simp [healthAfter, nextHealthScore, initialHealthScore]
  · norm_num [healthAfter, nextHealthScore, initialHealthScore]

/-- C9: every dashboard history update produces a list of at most 50 points,
ends with the freshly appended point, and is a suffix of the old history with
the new point appended (so only the oldest entries are discarded). -/
theorem claim_C9 (prev : List HistPoint) (p : HistPoint) :
    (historyUpdate prev p).length ≤ 50 ∧
    (historyUpdate prev p).getLast? = some p ∧
    (historyUpdate prev p) <:+ (prev ++ [p]) := by
  refine ⟨?_, ?_, ?_⟩
  · have h := List.length_drop ((prev ++ [p]).length - 50) (prev ++ [p])
    simp only [historyUpdate, sliceLast50]
    omega
  · have hle : (prev ++ [p]).length - 50 ≤ prev.length := by
      simp only [List.length_append, List.length_singleton]
      omega
    simp only [historyUpdate, sliceLast50, List.drop_append_of_le_length hle]
    exact List.getLast?_concat _
  · exact List.drop_suffix _ _

/-- C2: chatService.sendMessage either returns the backend's response or
fails with the typed ChatError produced by handleApiError; that error always
carries the timestamp of the failure, and its code is the HTTP status
rendered as a string when the failure is an HTTP error (an axios error with
a response) and the string UNKNOWN_ERROR otherwise.  No error path returns
normally and none rethrows an untyped value. -/
theorem claim_C2 (now : Nat) (post : Except JsError (APIResponse ChatResponse)) :
    (∀ r, post = .ok r → chatServiceSendMessage now post = .ok r) ∧
    (∀ e, post = .error e →
      chatServiceSendMessage now post = .error (handleApiError now e) ∧
      (handleApiError now e).timestamp = now ∧
      (match e with
       | .axios (some resp) _ _ => (handleApiError now e).code = toString resp.status
       | .axios none _ _ => (handleApiError now e).code = "UNKNOWN_ERROR"
       | .other => (handleApiError now e).code = "UNKNOWN_ERROR")) := by
  constructor
  · intro r h
    subst h
    rfl
  · intro e h
    subst h
    refine ⟨rfl, ?_, ?_⟩
    · cases e with
      | axios response msg mid => rfl
      | other => rfl
    · cases e with
      | axios response msg mid => cases response <;> rfl
      | other => rfl

/-- Example axios failure used by the C2 witness: an HTTP 404 with a JSON
body message. -/
def errEg : JsError :=
  JsError.axios (some { status := 404, dataMessage := some "Not found" }) "Request failed" none

/-- Witness for C2 at the concrete failure errEg occurring at time 7. -/
theorem claim_C2_witness :
    chatServiceSendMessage 7 (Except.error errEg) = Except.error (handleApiError 7 errEg) ∧
    (handleApiError 7 errEg).timestamp = 7 ∧
    (handleApiError 7 errEg).code = "404" := by
  have h := (claim_C2 7 (Except.error errEg)).2 errEg rfl
  exact ⟨h.1, h.2.1, h.2.2⟩

/-- C6: the configuration surface supplies exactly the documented defaults,
and the axios client timeout (in milliseconds) agrees with the 30-second
REQUEST_TIMEOUT default. -/
theorem claim_C6 :
    MAX_CONCURRENT_REQUESTS = 100 ∧
    REQUEST_TIMEOUT = 30 ∧
    CACHE_TTL = 3600 ∧
    DEFAULT_CULTURAL_THRESHOLD = 7/10 ∧
    apiClientTimeoutMs = 30000 ∧
    apiClientTimeoutMs = 1000 * REQUEST_TIMEOUT :=
  ⟨rfl, rfl, rfl, rfl, rfl, rfl⟩

/-- Helper: a single useChat event preserves the relation between the
in-flight counter and the loading flag. -/
theorem step_inflight (s : HookState) (e : ChatEvent)
    (h : s.inFlight = if s.isLoading then 1 else 0) :
    (step s e).inFlight = if (step s e).isLoading then 1 else 0 := by
  cases e with
  | start content now =>
    by_cases hg : jsTrim content = "" ∨ s.isLoading = true
    · simpa [step, if_pos hg] using h
    · have hnl : s.isLoading = false := by
        cases hb : s.isLoading
        · rfl
        · exact absurd (Or.inr hb) hg
      have hg1 : ¬(jsTrim content = "") := fun hc => hg (Or.inl hc)
      simp [step, hnl, hg1] at h ⊢
      omega
  | succeed r now =>
    cases hl : s.isLoading
    · simp [step, hl] at h ⊢
      exact h
    · simp [step, hl] at h ⊢
      omega
  | fail e =>
    cases hl : s.isLoading
    · simp [step, hl] at h ⊢
      exact h
    · simp [step, hl] at h ⊢
      omega

/-- Helper: the in-flight/loading relation holds along any event fold. -/
theorem foldl_inflight (es : List ChatEvent) :
    ∀ s : HookState, s.inFlight = (if s.isLoading then 1 else 0) →
      (es.foldl step s).inFlight = if (es.foldl step s).isLoading then 1 else 0 := by
  induction es with
  | nil => intro s h; simpa using h
  | cons e es ih =>
    intro s h
    simpa [List.foldl_cons] using ih (step s e) (step_inflight s e h)

/-- C5: in every state reachable by the useChat hook the number of in-flight
chat requests is at most one (sendMessage refuses to start while isLoading),
and in particular never exceeds MAX_CONCURRENT_REQUESTS. -/
theorem claim_C5 (t0 : Nat) (es : List ChatEvent) :
    (run t0 es).inFlight ≤ 1 ∧ (run t0 es).inFlight ≤ MAX_CONCURRENT_REQUESTS := by
  have h := foldl_inflight es (initHookState t0) (by simp [initHookState])
  unfold run
  rw [h]
  constructor
  · split <;> omega
  · split <;> simp [MAX_CONCURRENT_REQUESTS]

/-- C8: a sendMessage call whose content trims to the empty string, or made
while isLoading is true, leaves the hook state completely unchanged — in
particular the message list, error state, loading flag, last message and the
record of issued API requests are all as before. -/
theorem claim_C8 (s : HookState) (content : String) (now : Nat)
    (h : jsTrim content = "" ∨ s.isLoading = true) :
    step s (ChatEvent.start content now) = s := by
  simp only [step]
  exact if_pos h

/-- Witness for C8: sending three spaces from the freshly mounted hook does
nothing. -/
theorem claim_C8_witness :
    step (initHookState 0) (ChatEvent.start "   " 5) = initHookState 0 :=
  claim_C8 (initHookState 0) "   " 5 (Or.inl (by decide))

/-- C3: when a response arrives for the in-flight request it is always
appended to the message list, even when its cultural score is below the
default threshold 0.7 — in that case it is flagged below_threshold=true
(spec-modelled ScoringEngine flag) and no success toast is shown; whenever
the success toast is shown, the score exceeds the threshold. -/
theorem claim_C3 (s : HookState) (r : ChatResponse) (now : Nat)
    (hload : s.isLoading = true) :
    (step s (ChatEvent.succeed r now)).messages = s.messages ++ [assistantMsg r now] ∧
    (r.culturalAccuracyScore < DEFAULT_CULTURAL_THRESHOLD →
      belowThreshold r.culturalAccuracyScore DEFAULT_CULTURAL_THRESHOLD = true ∧
      (step s (ChatEvent.succeed r now)).successToasts = s.successToasts) ∧
    ((step s (ChatEvent.succeed r now)).successToasts ≠ s.successToasts →
      DEFAULT_CULTURAL_THRESHOLD < r.culturalAccuracyScore) := by
  simp only [step, hload, if_pos rfl]
  refine ⟨rfl, ?_, ?_⟩
  · intro hlt
    have hth : DEFAULT_CULTURAL_THRESHOLD = 7/10 := rfl
    have hngt : ¬(r.culturalAccuracyScore > 9/10) := by
      rw [hth] at hlt
      intro hgt
      linarith
    refine ⟨by simp [belowThreshold, hlt], by simp [hngt]⟩
  · intro hne
    by_cases hgt : r.culturalAccuracyScore > 9/10
    · have hth : DEFAULT_CULTURAL_THRESHOLD = 7/10 := rfl
      rw [hth]
      linarith
    · exact absurd (by simp [hgt]) hne

/-- Concrete loading state used by the C3 witness. -/
def loadingStateEg : HookState :=
  { messages := []
    isLoading := true
    error := none
    lastMessage := some "hi"
    inFlight := 1
    requests := ["hi"]
    successToasts := 0 }

/-- Concrete response scoring 0.5, below the default threshold 0.7. -/
def respLow : ChatResponse :=
  { message := "ok"
    aiPlatform := "claude"
    culturalContext := { context := "thai", explanation := "formal greeting" }
    culturalAccuracyScore := 1/2
    emotionalIntelligenceScore := 1/2
    processingTime := 0 }

/-- Witness for C3: the 0.5-scoring response is appended, flagged below
threshold, and shows no success toast. -/
theorem claim_C3_witness :
    (step loadingStateEg (ChatEvent.succeed respLow 9)).messages =
      loadingStateEg.messages ++ [assistantMsg respLow 9] ∧
    belowThreshold respLow.culturalAccuracyScore DEFAULT_CULTURAL_THRESHOLD = true ∧
    (step loadingStateEg (ChatEvent.succeed respLow 9)).successToasts =
      loadingStateEg.successToasts := by
  have hlt : respLow.culturalAccuracyScore < DEFAULT_CULTURAL_THRESHOLD := by
    norm_num [respLow, DEFAULT_CULTURAL_THRESHOLD]
  have h := claim_C3 loadingStateEg respLow 9 rfl
  exact ⟨h.1, (h.2.1 hlt).1, (h.2.1 hlt).2⟩

/-- Helper: the retry count after n consecutive failures is min n 3. -/
theorem retryCountAfter_eq (n : Nat) : retryCountAfter n = min n 3 := by
  induction n with
  | zero => rfl
  | succ n ih =>
    simp only [retryCountAfter, failRetryStep, ih]
    split <;> omega

/-- Helper: the number of scheduled retries after n consecutive failures is
min n 3. -/
theorem retriesScheduledAfter_eq (n : Nat) : retriesScheduledAfter n = min n 3 := by
  induction n with
  | zero => rfl
  | succ n ih =>
    simp only [retriesScheduledAfter, ih, retryCountAfter_eq, retryScheduled,
      decide_eq_true_eq]
    split <;> omega

/-- C4: after any run of consecutive send failures the retry count never
exceeds 3, at most 3 retries are ever scheduled (and at least one when a
failure occurred), a retry is scheduled exactly while the retry count is
strictly below 3, and each scheduled retry backs off exponentially. -/
theorem claim_C4 (n m rc : Nat) (h1 : 1 ≤ n) :
    retryCountAfter n ≤ 3 ∧
    retriesScheduledAfter n ≤ 3 ∧
    1 ≤ retriesScheduledAfter n ∧
    (retryScheduled (retryCountAfter m) = true ↔ retryCountAfter m < 3) ∧
    backoffDelay rc = 1000 * 2 ^ rc := by
  refine ⟨?_, ?_, ?_, ?_, rfl⟩
  · rw [retryCountAfter_eq]; omega
  · rw [retriesScheduledAfter_eq]; omega
  · rw [retriesScheduledAfter_eq]; omega
  · simp [retryScheduled]

/-- Witness for C4 at 5 consecutive failures. -/
theorem claim_C4_witness :
    retryCountAfter 5 ≤ 3 ∧
    retriesScheduledAfter 5 ≤ 3 ∧
    1 ≤ retriesScheduledAfter 5 ∧
    (retryScheduled (retryCountAfter 2) = true ↔ retryCountAfter 2 < 3) ∧
    backoffDelay 1 = 1000 * 2 ^ 1 :=
  claim_C4 5 2 1 (by decide)

/-- C7: serving the same message again within CACHE_TTL returns the same
cached exchange without invoking the backend, and after the TTL has expired
a fresh backend call occurs; the cache identity is query_hash, the first 32
characters of the base64 of the message (cache layer modelled from the
spec, query_hash embedded from chatService.sendMessage). -/
theorem claim_C7 (backend : List Nat → APIResponse ChatResponse) (msgBytes : List Nat)
    (t0 t1 t2 : Nat) (h1 : t1 < t0 + CACHE_TTL) (h2 : t0 + CACHE_TTL ≤ t2) :
    query_hash msgBytes = (btoa msgBytes).take 32 ∧
    (servedChat backend [] msgBytes t0).2.1 = true ∧
    servedChat backend (servedChat backend [] msgBytes t0).2.2 msgBytes t1 =
      ((servedChat backend [] msgBytes t0).1, false,
        (servedChat backend [] msgBytes t0).2.2) ∧
    (servedChat backend (servedChat backend [] msgBytes t0).2.2 msgBytes t2).2.1 = true := by
  have hfirst : servedChat backend [] msgBytes t0 =
      (backend msgBytes, true,
        [{ key := query_hash msgBytes, storedAt := t0, value := backend msgBytes }]) := by
    simp [servedChat, cacheLookup]
  have h2n : ¬(t2 < t0 + CACHE_TTL) := by omega
  have hfind : List.find? (fun (e : CacheEntry) => e.key == query_hash msgBytes)
      ([{ key := query_hash msgBytes, storedAt := t0, value := backend msgBytes }] :
        List CacheEntry) =
      some { key := query_hash msgBytes, storedAt := t0, value := backend msgBytes } :=
    List.find?_cons_of_pos _ (by simp)
  have hlook1 : cacheLookup
      [{ key := query_hash msgBytes, storedAt := t0, value := backend msgBytes }]
      (query_hash msgBytes) t1 = some (backend msgBytes) := by
    unfold cacheLookup
    rw [hfind]
    simp [h1]
  have hlook2 : cacheLookup
      [{ key := query_hash msgBytes, storedAt := t0, value := backend msgBytes }]
      (query_hash msgBytes) t2 = none := by
    unfold cacheLookup
    rw [hfind]
    simp [h2n]
  refine ⟨rfl, ?_, ?_, ?_⟩
  · rw [hfirst]
  · rw [hfirst]
    show servedChat backend _ msgBytes t1 = _
    unfold servedChat
    rw [hlook1]
  · rw [hfirst]
    show (servedChat backend _ msgBytes t2).2.1 = true
    unfold servedChat
    rw [hlook2]

/-- Concrete response used by the C7 witness. -/
def respEg : ChatResponse :=
  { message := "hello"
    aiPlatform := "openai"
    culturalContext := { context := "international", explanation := "neutral" }
    culturalAccuracyScore := 1
    emotionalIntelligenceScore := 1
    processingTime := 0 }

/-- Concrete successful API envelope used by the C7 witness. -/
def apiRespEg : APIResponse ChatResponse := { success := true, data := respEg }

/-- Witness for C7: the message "hi" (bytes 104, 105) served at time 0 is
replayed from the cache at time 1 and refetched at time 3600. -/
theorem claim_C7_witness :
    query_hash [104, 105] = (btoa [104, 105]).take 32 ∧
    (servedChat (fun _ => apiRespEg) [] [104, 105] 0).2.1 = true ∧
    servedChat (fun _ => apiRespEg)
        (servedChat (fun _ => apiRespEg) [] [104, 105] 0).2.2 [104, 105] 1 =
      ((servedChat (fun _ => apiRespEg) [] [104, 105] 0).1, false,
        (servedChat (fun _ => apiRespEg) [] [104, 105] 0).2.2) ∧
    (servedChat (fun _ => apiRespEg)
        (servedChat (fun _ => apiRespEg) [] [104, 105] 0).2.2 [104, 105] 3600).2.1 = true :=
  claim_C7 (fun _ => apiRespEg) [104, 105] 0 1 3600 (by decide) (by decide)

/-- C10: checkApiAvailability is a total boolean function of the health
check outcome: it returns true exactly when healthCheck succeeds and false
for every failure of healthCheck. -/
theorem claim_C10 (now : Nat) (get : Except JsError (APIResponse HealthStatus)) :
    (checkApiAvailability now get = true ↔ ∃ r, get = .ok r) ∧
    (checkApiAvailability now get = false ↔ ∃ e, get = .error e) := by
  cases get with
  | ok r =>
    constructor
    · simp [checkApiAvailability, healthCheck]
    · simp [checkApiAvailability, healthCheck]
  | error e =>
    constructor
    · simp [checkApiAvailability, healthCheck]
    · simp [checkApiAvailability, healthCheck]

end ZynxAGI
